import Mathlib

/-!
Verification of the Arduino MIDI library core (MIDI.hpp / MIDILite.h):
a shallow embedding of the message parser, the encoder, the RPN/NRPN
framing and the active-sensing watchdog, with theorems about the
behaviours documented in the design specification.

Machine bytes are modelled as `Nat` with explicit bit masking where the
C++ code masks; the transport is modelled as a pure byte sink or a byte
list, with `beginTransmission` always accepting (the serial transport of
the library always returns true).
-/

namespace ArduinoMidi

/-! ## Constants

The status-byte codes of `MidiType`, the channel sentinels, the RPN/NRPN
controller numbers and the error-bit indices live in `midi_Defs.h`,
which is not part of the two sources; they are modelled from the spec
(sections 3 and 6: status nibbles 0x8-0xE for channel voice, system
common 0xF0-0xF7, system real-time 0xF8-0xFF, controllers 101/100 for
RPN select, 99/98 for NRPN select, Data-Entry 6/38, Increment 96,
Decrement 97, channel omni wildcard and off sentinel). -/

/-- Modelled from the spec: `InvalidType` sentinel from `midi_Defs.h`. -/
def InvalidType : Nat := 0x00
/-- Modelled from the spec: channel-voice status codes from `midi_Defs.h`. -/
def NoteOff : Nat := 0x80
def NoteOn : Nat := 0x90
def AfterTouchPoly : Nat := 0xA0
def ControlChange : Nat := 0xB0
def ProgramChange : Nat := 0xC0
def AfterTouchChannel : Nat := 0xD0
def PitchBend : Nat := 0xE0
/-- Modelled from the spec: system common status codes from `midi_Defs.h`. -/
def SystemExclusiveStart : Nat := 0xF0
def TimeCodeQuarterFrame : Nat := 0xF1
def SongPosition : Nat := 0xF2
def SongSelect : Nat := 0xF3
def Undefined_F4 : Nat := 0xF4
def Undefined_F5 : Nat := 0xF5
def TuneRequest : Nat := 0xF6
def SystemExclusiveEnd : Nat := 0xF7
/-- Modelled from the spec: system real-time status codes from `midi_Defs.h`. -/
def Clock : Nat := 0xF8
def Tick : Nat := 0xF9
def Start : Nat := 0xFA
def Continue : Nat := 0xFB
def Stop : Nat := 0xFC
def Undefined_FD : Nat := 0xFD
def ActiveSensing : Nat := 0xFE
def SystemReset : Nat := 0xFF

/-- Modelled from the spec: the omni wildcard channel from `midi_Defs.h`. -/
def MIDI_CHANNEL_OMNI : Nat := 0
/-- Modelled from the spec: the off sentinel channel (first value above 16). -/
def MIDI_CHANNEL_OFF : Nat := 17

/-- Modelled from the spec: RPN/NRPN Control-Change controller numbers. -/
def RPNLSB : Nat := 100
def RPNMSB : Nat := 101
def NRPNLSB : Nat := 98
def NRPNMSB : Nat := 99
def DataEntryMSB : Nat := 6
def DataEntryLSB : Nat := 38
def DataIncrement : Nat := 96
def DataDecrement : Nat := 97

/-- Modelled from the spec: the bit index of the ParseError flag in the
sticky error value, with the ActiveSensingTimeout bit adjacent above it
(the spec notes the source tests `ErrorActiveSensingTimeout - 1`, the
ParseError position, in one branch). -/
def ErrorParse : Nat := 0
/-- Modelled from the spec: the bit index of the ActiveSensingTimeout flag. -/
def ErrorActiveSensingTimeout : Nat := 1

/-- Modelled from the spec: the fixed receive-side watchdog timeout in
milliseconds (the source comment in `read` names 300 ms). -/
def ActiveSensingTimeout : Nat := 300

/-! ## Data model -/

/-- One decoded or to-be-encoded MIDI event. Modelled from the spec:
`midi_Message.h` is not among the sources; the field set is spec section
3 (`type, channel, data1, data2, length, valid`). -/
structure Message where
  channel : Nat
  type : Nat
  data1 : Nat
  data2 : Nat
  valid : Bool
  length : Nat
deriving Repr, DecidableEq

/-- Modelled from the spec: the recognized compile-time configuration
options of `midi_Settings.h` (spec section 6). -/
structure Settings where
  useRunningStatus : Bool
  use1ByteParsing : Bool
  useSenderActiveSensing : Bool
  useReceiverActiveSensing : Bool
  handleNullVelocityNoteOnAsNoteOff : Bool
  senderActiveSensingPeriodicity : Nat
deriving Repr, DecidableEq

/-- Modelled from the spec: the default settings (running-status
compression off, greedy parsing, watchdogs off, null-velocity
normalization on, sender periodicity 0 = disabled). -/
def DefaultSettings : Settings :=
  { useRunningStatus := false
    use1ByteParsing := false
    useSenderActiveSensing := false
    useReceiverActiveSensing := false
    handleNullVelocityNoteOnAsNoteOff := true
    senderActiveSensingPeriodicity := 0 }

/-- The mutable state of one `MidiInterface` instance (field list of
`MIDILite.h`); the three-byte pending buffer is spelled as three fields. -/
structure MidiState where
  mInputChannel : Nat
  mRunningStatus_RX : Nat
  mRunningStatus_TX : Nat
  mPendingMessage0 : Nat
  mPendingMessage1 : Nat
  mPendingMessage2 : Nat
  mPendingMessageExpectedLength : Nat
  mPendingMessageIndex : Nat
  mCurrentRpnNumber : Nat
  mCurrentNrpnNumber : Nat
  mMessage : Message
  mLastMessageSentTime : Nat
  mLastMessageReceivedTime : Nat
  mSenderActiveSensingPeriodicity : Nat
  mReceiverActiveSensingActivated : Bool
  mLastError : Nat
deriving Repr, DecidableEq

/-- Write `mPendingMessage[i] = v` (the index never exceeds 2 in the
source; out-of-range writes are modelled as no-ops). -/
def setPendingAt (st : MidiState) (i v : Nat) : MidiState :=
  if i = 0 then { st with mPendingMessage0 := v }
  else if i = 1 then { st with mPendingMessage1 := v }
  else if i = 2 then { st with mPendingMessage2 := v }
  else st

/-- Clear bit `i` of an 8-bit error value: `e &= ~(1 << i)` on `int8_t`. -/
def clearBit8 (e i : Nat) : Nat := e &&& (0xFF ^^^ (1 <<< i))

/-! ## Static helpers (MIDI.hpp lines 637-642, 1071-1110) -/

/-- `getStatus`: `(byte)inType | ((inChannel - 1) & 0x0f)`; `Channel` is
an unsigned byte, so the decrement wraps modulo 256. -/
def getStatus (inType inChannel : Nat) : Nat :=
  inType ||| (((inChannel + 255) % 256) &&& 0x0f)

/-- `getTypeFromStatusByte` (MIDI.hpp lines 1076-1090). -/
def getTypeFromStatusByte (inStatus : Nat) : Nat :=
  if inStatus < 0x80 ∨ inStatus = Undefined_F4 ∨ inStatus = Undefined_F5 ∨
      inStatus = Undefined_FD then
    InvalidType
  else if inStatus < 0xF0 then
    inStatus &&& 0xF0
  else
    inStatus

/-- `getChannelFromStatusByte` (MIDI.hpp lines 1094-1098). -/
def getChannelFromStatusByte (inStatus : Nat) : Nat :=
  (inStatus &&& 0x0f) + 1

/-- `isChannelMessage` (MIDI.hpp lines 1100-1110). -/
abbrev isChannelMessage (inType : Nat) : Prop :=
  inType = NoteOff ∨ inType = NoteOn ∨ inType = ControlChange ∨
  inType = AfterTouchPoly ∨ inType = AfterTouchChannel ∨
  inType = PitchBend ∨ inType = ProgramChange

/-! ## Encoder (MIDI.hpp lines 142-466, 472-624)

`Platform::now()` is threaded through as an explicit `now` argument;
`mTransport.write` accumulates into the returned byte list and
`beginTransmission` always accepts. -/

/-- `updateLastSentTime` (MIDI.hpp lines 626-631). -/
def updateLastSentTime (s : Settings) (now : Nat) (st : MidiState) : MidiState :=
  if s.useSenderActiveSensing ∧ st.mSenderActiveSensingPeriodicity ≠ 0 then
    { st with mLastMessageSentTime := now }
  else st

/-- `sendRealTime` (MIDI.hpp lines 441-466). The switch lists `Clock,
Start, Stop, Continue, ActiveSensing, SystemReset`; anything else hits
the default branch and writes nothing. -/
def sendRealTime (s : Settings) (now : Nat) (inType : Nat) (st : MidiState) :
    MidiState × List Nat :=
  if inType = Clock ∨ inType = Start ∨ inType = Stop ∨ inType = Continue ∨
      inType = ActiveSensing ∨ inType = SystemReset then
    (updateLastSentTime s now st, [inType])
  else
    (st, [])

/-- The four-argument `send` (MIDI.hpp lines 142-195). -/
def send (s : Settings) (now : Nat) (inType inData1 inData2 inChannel : Nat)
    (st : MidiState) : MidiState × List Nat :=
  if inType ≤ PitchBend then
    if MIDI_CHANNEL_OFF ≤ inChannel ∨ inChannel = MIDI_CHANNEL_OMNI ∨
        inType < 0x80 then
      (st, [])
    else
      let d1 := inData1 &&& 0x7f
      let d2 := inData2 &&& 0x7f
      let status := getStatus inType inChannel
      let hdr : MidiState × List Nat :=
        if s.useRunningStatus then
          if st.mRunningStatus_TX ≠ status then
            ({ st with mRunningStatus_TX := status }, [status])
          else (st, [])
        else (st, [status])
      let dataBytes :=
        if inType ≠ ProgramChange ∧ inType ≠ AfterTouchChannel then [d1, d2]
        else [d1]
      (updateLastSentTime s now hdr.1, hdr.2 ++ dataBytes)
  else if Clock ≤ inType ∧ inType ≤ SystemReset then
    sendRealTime s now inType st
  else
    (st, [])

/-- `sendControlChange` (MIDI.hpp lines 252-258). -/
def sendControlChange (s : Settings) (now : Nat)
    (inControlNumber inControlValue inChannel : Nat) (st : MidiState) :
    MidiState × List Nat :=
  send s now ControlChange inControlNumber inControlValue inChannel st

/-- `beginRpn` (MIDI.hpp lines 472-484). -/
def beginRpn (s : Settings) (now : Nat) (inNumber inChannel : Nat)
    (st : MidiState) : MidiState × List Nat :=
  if st.mCurrentRpnNumber ≠ inNumber then
    let numMsb := 0x7f &&& (inNumber >>> 7)
    let numLsb := 0x7f &&& inNumber
    let r1 := sendControlChange s now RPNLSB numLsb inChannel st
    let r2 := sendControlChange s now RPNMSB numMsb inChannel r1.1
    ({ r2.1 with mCurrentRpnNumber := inNumber }, r1.2 ++ r2.2)
  else
    (st, [])

/-- `beginNrpn` (MIDI.hpp lines 552-564). -/
def beginNrpn (s : Settings) (now : Nat) (inNumber inChannel : Nat)
    (st : MidiState) : MidiState × List Nat :=
  if st.mCurrentNrpnNumber ≠ inNumber then
    let numMsb := 0x7f &&& (inNumber >>> 7)
    let numLsb := 0x7f &&& inNumber
    let r1 := sendControlChange s now NRPNLSB numLsb inChannel st
    let r2 := sendControlChange s now NRPNMSB numMsb inChannel r1.1
    ({ r2.1 with mCurrentNrpnNumber := inNumber }, r1.2 ++ r2.2)
  else
    (st, [])

/-! ## Parser (MIDI.hpp lines 730-956) -/

/-- `resetInput` (MIDI.hpp lines 999-1005). -/
def resetInput (st : MidiState) : MidiState :=
  { st with mPendingMessageIndex := 0
            mPendingMessageExpectedLength := 0
            mRunningStatus_RX := InvalidType }

/-- The one-byte message types of the parser switch (MIDI.hpp lines 782-789). -/
abbrev isOneByteType (t : Nat) : Prop :=
  t = Start ∨ t = Continue ∨ t = Stop ∨ t = Clock ∨ t = Tick ∨
  t = ActiveSensing ∨ t = SystemReset ∨ t = TuneRequest

/-- The two-byte message types of the parser switch (MIDI.hpp lines 806-809). -/
abbrev isTwoByteType (t : Nat) : Prop :=
  t = ProgramChange ∨ t = AfterTouchChannel ∨ t = TimeCodeQuarterFrame ∨
  t = SongSelect

/-- The three-byte message types of the parser switch (MIDI.hpp lines 814-819). -/
abbrev isThreeByteType (t : Nat) : Prop :=
  t = NoteOn ∨ t = NoteOff ∨ t = ControlChange ∨ t = PitchBend ∨
  t = AfterTouchPoly ∨ t = SongPosition

/-- The real-time codes accepted mid-accumulation (MIDI.hpp lines 865-871). -/
abbrev isRealTimeStatus (b : Nat) : Prop :=
  b = Clock ∨ b = Start ∨ b = Tick ∨ b = Continue ∨ b = Stop ∨
  b = ActiveSensing ∨ b = SystemReset

/-- Outcome of processing one extracted byte inside `parse`: a complete
message (`return true`), an error (`return false`), or an unfinished
accumulation (return false in 1-byte mode, recurse in greedy mode). -/
inductive StepOut where
  | msg
  | err
  | cont
deriving Repr, DecidableEq

/-- The per-byte body of `parse` (MIDI.hpp lines 754-955), after the
Undefined_FD filter: everything the parser does with one extracted byte. -/
def parseStep (st : MidiState) (extracted : Nat) : StepOut × MidiState :=
  if st.mPendingMessageIndex = 0 then
    -- Start a new pending message (lines 756-757)
    let st := { st with mPendingMessage0 := extracted }
    -- Running-status expansion (lines 759-775)
    let st :=
      if isChannelMessage (getTypeFromStatusByte st.mRunningStatus_RX) ∧
          extracted < 0x80 then
        { st with mPendingMessage0 := st.mRunningStatus_RX
                  mPendingMessage1 := extracted
                  mPendingMessageIndex := 1 }
      else st
    let pendingType := getTypeFromStatusByte st.mPendingMessage0
    if isOneByteType pendingType then
      -- 1 byte messages, handled directly (lines 781-803); running
      -- status and the message length field are left untouched
      (.msg,
        { st with
            mMessage := { st.mMessage with
                            type := pendingType
                            channel := 0
                            data1 := 0
                            data2 := 0
                            valid := true }
            mPendingMessageIndex := 0
            mPendingMessageExpectedLength := 0 })
    else if isTwoByteType pendingType ∨ isThreeByteType pendingType then
      let st := { st with mPendingMessageExpectedLength :=
                    if isTwoByteType pendingType then 2 else 3 }
      if st.mPendingMessageExpectedLength - 1 ≤ st.mPendingMessageIndex then
        -- Reception complete at the header stage (lines 833-847)
        (.msg,
          { st with
              mMessage := { type := pendingType
                            channel := getChannelFromStatusByte st.mPendingMessage0
                            data1 := st.mPendingMessage1
                            data2 := 0
                            length := 1
                            valid := true }
              mPendingMessageIndex := 0
              mPendingMessageExpectedLength := 0 })
      else
        (.cont, { st with mPendingMessageIndex := st.mPendingMessageIndex + 1 })
    else
      -- InvalidType and the sysex markers: error (lines 823-831)
      (.err, resetInput { st with mLastError := st.mLastError ||| (1 <<< ErrorParse) })
  else
    -- Status byte in the middle of an uncompleted message (lines 858-902)
    if 0x80 ≤ extracted ∧ isRealTimeStatus extracted then
      -- Interleaved real-time message (lines 865-887): the pending
      -- message and the running status are left exactly as they were
      (.msg,
        { st with
            mMessage := { type := extracted
                          data1 := 0
                          data2 := 0
                          channel := 0
                          length := 1
                          valid := true } })
    else if 0x80 ≤ extracted ∧
        (extracted = SystemExclusiveStart ∨ extracted = SystemExclusiveEnd) then
      (.err, resetInput { st with mLastError := st.mLastError ||| (1 <<< ErrorParse) })
    else
      -- Add extracted data byte to pending message (lines 904-905)
      let st := setPendingAt st st.mPendingMessageIndex extracted
      if st.mPendingMessageExpectedLength - 1 ≤ st.mPendingMessageIndex then
        -- End of message reached (lines 908-946); the length field is
        -- not assigned here
        let t := getTypeFromStatusByte st.mPendingMessage0
        (.msg,
          { st with
              mMessage := { st.mMessage with
                              type := t
                              channel :=
                                if isChannelMessage t then
                                  getChannelFromStatusByte st.mPendingMessage0
                                else 0
                              data1 := st.mPendingMessage1
                              data2 :=
                                if st.mPendingMessageExpectedLength = 3 then
                                  st.mPendingMessage2
                                else 0
                              valid := true }
              mPendingMessageIndex := 0
              mPendingMessageExpectedLength := 0
              mRunningStatus_RX :=
                if isChannelMessage t then st.mPendingMessage0
                else InvalidType })
      else
        (.cont, { st with mPendingMessageIndex := st.mPendingMessageIndex + 1 })

/-- `parse` (MIDI.hpp lines 730-956) over a byte-list transport: returns
the `bool` result, the new state, and the bytes left in the transport.
The ErrorParse bit is cleared only once a byte is available; the
Undefined_FD byte is discarded; in greedy mode (Use1ByteParsing false)
the parser recurses until a message completes, an error occurs, or the
input is exhausted. -/
def parse (s : Settings) : MidiState → List Nat → Bool × MidiState × List Nat
  | st, [] => (false, st, [])
  | st, extracted :: rest =>
    let st := { st with mLastError := clearBit8 st.mLastError ErrorParse }
    if extracted = Undefined_FD then
      if s.use1ByteParsing then (false, st, rest) else parse s st rest
    else
      match parseStep st extracted with
      | (.msg, st2) => (true, st2, rest)
      | (.err, st2) => (false, st2, rest)
      | (.cont, st2) =>
        if s.use1ByteParsing then (false, st2, rest) else parse s st2 rest

/-! ## Read cycle (MIDI.hpp lines 660-725, 960-996) -/

/-- `handleNullVelocityNoteOnAsNoteOff` (MIDI.hpp lines 959-967). -/
def handleNullVelocityNoteOnAsNoteOff (s : Settings) (st : MidiState) : MidiState :=
  if s.handleNullVelocityNoteOnAsNoteOff ∧ st.mMessage.type = NoteOn ∧
      st.mMessage.data2 = 0 then
    { st with mMessage := { st.mMessage with type := NoteOff } }
  else st

/-- `inputFilter` (MIDI.hpp lines 970-996). -/
def inputFilter (inChannel : Nat) (st : MidiState) : Bool :=
  if NoteOff ≤ st.mMessage.type ∧ st.mMessage.type ≤ PitchBend then
    if st.mMessage.channel = inChannel ∨ inChannel = MIDI_CHANNEL_OMNI then
      true
    else
      false
  else
    true

/-- The post-parse tail of `read` (MIDI.hpp lines 700-721): ActiveSensing
re-arm with the guarded attempt to clear the timeout bit, receive-time
stamping, and null-velocity normalization. -/
def readPost (s : Settings) (now : Nat) (st : MidiState) : MidiState :=
  let st :=
    if s.useReceiverActiveSensing ∧ st.mMessage.type = ActiveSensing then
      let st := { st with mReceiverActiveSensingActivated := true }
      if st.mLastError &&& (1 <<< (ErrorActiveSensingTimeout - 1)) ≠ 0 then
        { st with mLastError := clearBit8 st.mLastError ErrorActiveSensingTimeout }
      else st
    else st
  let st :=
    if s.useReceiverActiveSensing ∧ st.mReceiverActiveSensingActivated then
      { st with mLastMessageReceivedTime := now }
    else st
  handleNullVelocityNoteOnAsNoteOff s st

/-- The pre-parse head of `read` (MIDI.hpp lines 671-692): sender
heartbeat emission and the receive-watchdog timeout check. Returns the
updated state and the bytes sent. -/
def readPre (s : Settings) (now : Nat) (st : MidiState) :
    MidiState × List Nat :=
  let hb : MidiState × List Nat :=
    if s.useSenderActiveSensing ∧ 0 < st.mSenderActiveSensingPeriodicity ∧
        st.mSenderActiveSensingPeriodicity < now - st.mLastMessageSentTime then
      let r := sendRealTime s now ActiveSensing st
      ({ r.1 with mLastMessageSentTime := now }, r.2)
    else (st, [])
  let st := hb.1
  let st :=
    if s.useReceiverActiveSensing ∧ st.mReceiverActiveSensingActivated ∧
        st.mLastMessageReceivedTime + ActiveSensingTimeout < now then
      { st with mReceiverActiveSensingActivated := false
                mLastError := st.mLastError ||| (1 <<< ErrorActiveSensingTimeout) }
    else st
  (st, hb.2)

/-- `read(Channel)` (MIDI.hpp lines 668-725): heartbeat emission,
receive-watchdog timeout check, parse, then the post-parse tail and the
channel filter. Returns the accepted flag, the new state, the remaining
input, and the bytes sent. -/
def read (s : Settings) (now : Nat) (inChannel : Nat) (st : MidiState)
    (input : List Nat) : Bool × MidiState × List Nat × List Nat :=
  let pre := readPre s now st
  let st := pre.1
  if MIDI_CHANNEL_OFF ≤ inChannel then
    (false, st, input, pre.2)
  else
    match parse s st input with
    | (false, st, input) => (false, st, input, pre.2)
    | (true, st, input) =>
      let st := readPost s now st
      (inputFilter inChannel st, st, input, pre.2)

/-! ## Construction (MIDI.hpp lines 33-50, 69-93) -/

/-- The constructor state (MIDI.hpp lines 33-50); the pending buffer and
the message are not initialized by the constructor and are modelled as
zeroed. -/
def initialState (s : Settings) : MidiState :=
  { mInputChannel := 0
    mRunningStatus_RX := InvalidType
    mRunningStatus_TX := InvalidType
    mPendingMessage0 := 0
    mPendingMessage1 := 0
    mPendingMessage2 := 0
    mPendingMessageExpectedLength := 0
    mPendingMessageIndex := 0
    mCurrentRpnNumber := 0xffff
    mCurrentNrpnNumber := 0xffff
    mMessage := { channel := 0, type := InvalidType, data1 := 0, data2 := 0,
                  valid := false, length := 0 }
    mLastMessageSentTime := 0
    mLastMessageReceivedTime := 0
    mSenderActiveSensingPeriodicity := s.senderActiveSensingPeriodicity
    mReceiverActiveSensingActivated := false
    mLastError := 0 }

/-- `begin` (MIDI.hpp lines 69-93). -/
def begin (inChannel now : Nat) (st : MidiState) : MidiState :=
  { st with
      mInputChannel := inChannel
      mRunningStatus_TX := InvalidType
      mRunningStatus_RX := InvalidType
      mPendingMessageIndex := 0
      mPendingMessageExpectedLength := 0
      mCurrentRpnNumber := 0xffff
      mCurrentNrpnNumber := 0xffff
      mLastMessageSentTime := now
      mMessage := { valid := false, type := InvalidType, channel := 0,
                    data1 := 0, data2 := 0, length := 0 } }

/-- A freshly constructed and `begin`-initialized interface state. -/
def beginState (s : Settings) (inChannel : Nat) : MidiState :=
  begin inChannel 0 (initialState s)

/-! ## Test drivers

Feeding wire bytes one at a time means one `parse` call per byte with a
one-byte transport buffer; these drivers are the loop a test harness or
sketch would run around `parse`. -/

/-- Feed the bytes one per `parse` call; return the last call's result
flag and the final state. -/
def feedBytes (s : Settings) (st : MidiState) (bs : List Nat) :
    Bool × MidiState :=
  bs.foldl
    (fun acc b =>
      let r := parse s acc.2 [b]
      (r.1, r.2.1))
    (false, st)

/-- Feed the bytes one per `parse` call, collecting every completed
message in order. -/
def collectMessages (s : Settings) (st : MidiState) (bs : List Nat) :
    List Message × MidiState :=
  bs.foldl
    (fun acc b =>
      let r := parse s acc.2 [b]
      (acc.1 ++ (if r.1 then [(r.2.1).mMessage] else []), r.2.1))
    ([], st)

/-! ## Arithmetic helpers -/

theorem and127_fin : ∀ d : Fin 128, d.val &&& 0x7f = d.val := by decide

theorem and127_eq (d : Nat) (h : d < 128) : d &&& 0x7f = d := and127_fin ⟨d, h⟩

theorem and15_fin : ∀ r : Fin 16, r.val &&& 0x0f = r.val := by decide

theorem and15_eq (r : Nat) (h : r < 16) : r &&& 0x0f = r := and15_fin ⟨r, h⟩

/-- The seven channel-voice codes, indexed. -/
def cvNth : Fin 7 → Nat
  | 0 => 0x80
  | 1 => 0x90
  | 2 => 0xA0
  | 3 => 0xB0
  | 4 => 0xC0
  | 5 => 0xD0
  | 6 => 0xE0

theorem cv_bits_fin : ∀ (k : Fin 7) (r : Fin 16),
    cvNth k ||| r.val = cvNth k + r.val ∧
    (cvNth k + r.val) &&& 0xF0 = cvNth k ∧
    (cvNth k + r.val) &&& 0x0F = r.val := by decide

theorem isChannelMessage_iff (t : Nat) :
    isChannelMessage t ↔ ∃ k : Fin 7, t = cvNth k := by
  constructor
  · rintro (rfl | rfl | rfl | rfl | rfl | rfl | rfl)
    exacts [⟨0, rfl⟩, ⟨1, rfl⟩, ⟨3, rfl⟩, ⟨2, rfl⟩, ⟨5, rfl⟩, ⟨6, rfl⟩, ⟨4, rfl⟩]
  · rintro ⟨k, rfl⟩
    fin_cases k <;> simp [isChannelMessage, NoteOff, NoteOn, ControlChange,
      AfterTouchPoly, AfterTouchChannel, PitchBend, ProgramChange, cvNth]

theorem cv_status_facts (t r : Nat) (ht : isChannelMessage t) (hr : r < 16) :
    t ||| r = t + r ∧ (t + r) &&& 0xF0 = t ∧ (t + r) &&& 0x0F = r := by
  obtain ⟨k, rfl⟩ := (isChannelMessage_iff t).mp ht
  exact cv_bits_fin k ⟨r, hr⟩

theorem cv_bounds (t : Nat) (ht : isChannelMessage t) : 0x80 ≤ t ∧ t ≤ 0xE0 := by
  rcases ht with rfl | rfl | rfl | rfl | rfl | rfl | rfl <;>
    simp [NoteOff, NoteOn, ControlChange, AfterTouchPoly, AfterTouchChannel,
      PitchBend, ProgramChange]

theorem getType_cv (t r : Nat) (ht : isChannelMessage t) (hr : r < 16) :
    getTypeFromStatusByte (t + r) = t := by
  obtain ⟨h80, hE0⟩ := cv_bounds t ht
  have hfacts := cv_status_facts t r ht hr
  unfold getTypeFromStatusByte
  rw [if_neg, if_pos (by omega)]
  · exact hfacts.2.1
  · simp only [Undefined_F4, Undefined_F5, Undefined_FD]
    omega

/-- `clearBit8` is idempotent. -/
theorem clearBit8_idem (e i : Nat) : clearBit8 (clearBit8 e i) i = clearBit8 e i := by
  unfold clearBit8
  rw [Nat.and_assoc, Nat.and_self]

theorem clearBit8_testBit_zero (e : Nat) :
    (clearBit8 e ErrorParse).testBit 0 = false := by
  unfold clearBit8 ErrorParse
  rw [Nat.testBit_and]
  simp

theorem clearBit8_zero_testBit_one (e : Nat) :
    (clearBit8 e ErrorParse).testBit 1 = e.testBit 1 := by
  unfold clearBit8 ErrorParse
  have hm : (0xFF ^^^ (1 <<< 0) : Nat).testBit 1 = true := by decide
  rw [Nat.testBit_and, hm, Bool.and_true]

theorem or_parseBit_testBit_one (e : Nat) :
    (e ||| (1 <<< ErrorParse)).testBit 1 = e.testBit 1 := by
  unfold ErrorParse
  have hm : (1 <<< 0 : Nat).testBit 1 = false := by decide
  rw [Nat.testBit_or, hm, Bool.or_false]

theorem or_timeoutBit_testBit_zero (e : Nat) :
    (e ||| (1 <<< ErrorActiveSensingTimeout)).testBit 0 = e.testBit 0 := by
  unfold ErrorActiveSensingTimeout
  have hm : (1 <<< 1 : Nat).testBit 0 = false := by decide
  rw [Nat.testBit_or, hm, Bool.or_false]

theorem or_timeoutBit_testBit_one (e : Nat) :
    (e ||| (1 <<< ErrorActiveSensingTimeout)).testBit 1 = true := by
  unfold ErrorActiveSensingTimeout
  have hm : (1 <<< 1 : Nat).testBit 1 = true := by decide
  rw [Nat.testBit_or, hm, Bool.or_true]

theorem and_one_eq_zero_of_testBit (e : Nat) (h : e.testBit 0 = false) :
    e &&& (1 <<< (ErrorActiveSensingTimeout - 1)) = 0 := by
  unfold ErrorActiveSensingTimeout
  have hm : (1 <<< (1 - 1) : Nat) = 1 := by decide
  rw [hm, Nat.and_one_is_mod]
  rw [Nat.testBit_to_div_mod] at h
  simp only [pow_zero, Nat.div_one, decide_eq_false_iff_not] at h
  omega

/-! ## Evaluation lemmas for `parseStep` -/

theorem parseStep_oneByte (st : MidiState) (b : Nat)
    (hidx : st.mPendingMessageIndex = 0) (hb : 0x80 ≤ b)
    (h1 : isOneByteType (getTypeFromStatusByte b)) :
    parseStep st b =
      (.msg, { st with
                 mPendingMessage0 := b
                 mMessage := { st.mMessage with
                                 type := getTypeFromStatusByte b
                                 channel := 0
                                 data1 := 0
                                 data2 := 0
                                 valid := true }
                 mPendingMessageIndex := 0
                 mPendingMessageExpectedLength := 0 }) := by
  have hb' : ¬ b < 0x80 := by omega
  simp [parseStep, hidx, hb', h1]

theorem parseStep_header2 (st : MidiState) (b : Nat)
    (hidx : st.mPendingMessageIndex = 0) (hb : 0x80 ≤ b)
    (h2 : isTwoByteType (getTypeFromStatusByte b)) :
    parseStep st b =
      (.cont, { st with mPendingMessage0 := b
                        mPendingMessageExpectedLength := 2
                        mPendingMessageIndex := 1 }) := by
  have hb' : ¬ b < 0x80 := by omega
  have h1 : ¬ isOneByteType (getTypeFromStatusByte b) := by
    rcases h2 with h | h | h | h <;> rw [h] <;> decide
  simp [parseStep, hidx, hb', h1, h2]

theorem parseStep_header3 (st : MidiState) (b : Nat)
    (hidx : st.mPendingMessageIndex = 0) (hb : 0x80 ≤ b)
    (h3 : isThreeByteType (getTypeFromStatusByte b)) :
    parseStep st b =
      (.cont, { st with mPendingMessage0 := b
                        mPendingMessageExpectedLength := 3
                        mPendingMessageIndex := 1 }) := by
  have hb' : ¬ b < 0x80 := by omega
  have h1 : ¬ isOneByteType (getTypeFromStatusByte b) := by
    rcases h3 with h | h | h | h | h | h <;> rw [h] <;> decide
  have h2 : ¬ isTwoByteType (getTypeFromStatusByte b) := by
    rcases h3 with h | h | h | h | h | h <;> rw [h] <;> decide
  simp [parseStep, hidx, hb', h1, h2, h3]

theorem parseStep_store1 (st : MidiState) (b : Nat)
    (hidx : st.mPendingMessageIndex = 1)
    (hexp : st.mPendingMessageExpectedLength = 3) (hb : b < 0x80) :
    parseStep st b =
      (.cont, { st with mPendingMessage1 := b, mPendingMessageIndex := 2 }) := by
  have h80 : ¬ 0x80 ≤ b := by omega
  simp [parseStep, hidx, hexp, h80, setPendingAt]

theorem parseStep_complete2 (st : MidiState) (b : Nat)
    (hidx : st.mPendingMessageIndex = 1)
    (hexp : st.mPendingMessageExpectedLength = 2) (hb : b < 0x80) :
    parseStep st b =
      (.msg, { st with
                 mPendingMessage1 := b
                 mMessage := { st.mMessage with
                                 type := getTypeFromStatusByte st.mPendingMessage0
                                 channel :=
                                   if isChannelMessage (getTypeFromStatusByte st.mPendingMessage0)
                                   then getChannelFromStatusByte st.mPendingMessage0
                                   else 0
                                 data1 := b
                                 data2 := 0
                                 valid := true }
                 mPendingMessageIndex := 0
                 mPendingMessageExpectedLength := 0
                 mRunningStatus_RX :=
                   if isChannelMessage (getTypeFromStatusByte st.mPendingMessage0)
                   then st.mPendingMessage0
                   else InvalidType }) := by
  have h80 : ¬ 0x80 ≤ b := by omega
  simp [parseStep, hidx, hexp, h80, setPendingAt]

theorem parseStep_complete3 (st : MidiState) (b : Nat)
    (hidx : st.mPendingMessageIndex = 2)
    (hexp : st.mPendingMessageExpectedLength = 3) (hb : b < 0x80) :
    parseStep st b =
      (.msg, { st with
                 mPendingMessage2 := b
                 mMessage := { st.mMessage with
                                 type := getTypeFromStatusByte st.mPendingMessage0
                                 channel :=
                                   if isChannelMessage (getTypeFromStatusByte st.mPendingMessage0)
                                   then getChannelFromStatusByte st.mPendingMessage0
                                   else 0
                                 data1 := st.mPendingMessage1
                                 data2 := b
                                 valid := true }
                 mPendingMessageIndex := 0
                 mPendingMessageExpectedLength := 0
                 mRunningStatus_RX :=
                   if isChannelMessage (getTypeFromStatusByte st.mPendingMessage0)
                   then st.mPendingMessage0
                   else InvalidType }) := by
  have h80 : ¬ 0x80 ≤ b := by omega
  simp [parseStep, hidx, hexp, h80, setPendingAt]

theorem parseStep_realtime (st : MidiState) (b : Nat)
    (hidx : st.mPendingMessageIndex ≠ 0) (hrt : isRealTimeStatus b) :
    parseStep st b =
      (.msg, { st with mMessage := { type := b, data1 := 0, data2 := 0,
                                     channel := 0, length := 1, valid := true } }) := by
  have hb : 0x80 ≤ b := by
    rcases hrt with h | h | h | h | h | h | h <;> rw [h] <;> decide
  simp [parseStep, hidx, hb, hrt]

theorem parseStep_err_idle (st : MidiState) (b : Nat)
    (hidx : st.mPendingMessageIndex = 0) (hb : 0x80 ≤ b)
    (h1 : ¬ isOneByteType (getTypeFromStatusByte b))
    (h2 : ¬ isTwoByteType (getTypeFromStatusByte b))
    (h3 : ¬ isThreeByteType (getTypeFromStatusByte b)) :
    parseStep st b =
      (.err, { st with
                 mPendingMessage0 := b
                 mLastError := st.mLastError ||| (1 <<< ErrorParse)
                 mPendingMessageIndex := 0
                 mPendingMessageExpectedLength := 0
                 mRunningStatus_RX := InvalidType }) := by
  have hb' : ¬ b < 0x80 := by omega
  simp [parseStep, hidx, hb', h1, h2, h3, resetInput]

theorem parseStep_err_stray (st : MidiState) (b : Nat)
    (hidx : st.mPendingMessageIndex = 0) (hb : b < 0x80)
    (hrs : ¬ isChannelMessage (getTypeFromStatusByte st.mRunningStatus_RX)) :
    parseStep st b =
      (.err, { st with
                 mPendingMessage0 := b
                 mLastError := st.mLastError ||| (1 <<< ErrorParse)
                 mPendingMessageIndex := 0
                 mPendingMessageExpectedLength := 0
                 mRunningStatus_RX := InvalidType }) := by
  have h0 : getTypeFromStatusByte b = InvalidType := by
    unfold getTypeFromStatusByte
    rw [if_pos (Or.inl hb)]
  have n1 : ¬ isOneByteType InvalidType := by decide
  have n2 : ¬ isTwoByteType InvalidType := by decide
  have n3 : ¬ isThreeByteType InvalidType := by decide
  simp [parseStep, hidx, hrs, h0, n1, n2, n3, resetInput]

theorem parseStep_err_sysex (st : MidiState) (b : Nat)
    (hidx : st.mPendingMessageIndex ≠ 0)
    (hb : b = SystemExclusiveStart ∨ b = SystemExclusiveEnd) :
    parseStep st b =
      (.err, { st with
                 mLastError := st.mLastError ||| (1 <<< ErrorParse)
                 mPendingMessageIndex := 0
                 mPendingMessageExpectedLength := 0
                 mRunningStatus_RX := InvalidType }) := by
  have hb80 : 0x80 ≤ b := by rcases hb with h | h <;> rw [h] <;> decide
  have hnrt : ¬ isRealTimeStatus b := by rcases hb with h | h <;> rw [h] <;> decide
  simp [parseStep, hidx, hb80, hnrt, hb, resetInput]

/-! ## Evaluation lemmas for `parse` -/

theorem parse_nil (s : Settings) (st : MidiState) :
    parse s st [] = (false, st, []) := rfl

theorem parse_cons_msg (s : Settings) (st st2 : MidiState) (b : Nat)
    (rest : List Nat) (hfd : b ≠ Undefined_FD)
    (h : parseStep { st with mLastError := clearBit8 st.mLastError ErrorParse } b
           = (.msg, st2)) :
    parse s st (b :: rest) = (true, st2, rest) := by
  simp [parse, hfd, h]

theorem parse_cons_err (s : Settings) (st st2 : MidiState) (b : Nat)
    (rest : List Nat) (hfd : b ≠ Undefined_FD)
    (h : parseStep { st with mLastError := clearBit8 st.mLastError ErrorParse } b
           = (.err, st2)) :
    parse s st (b :: rest) = (false, st2, rest) := by
  simp [parse, hfd, h]

theorem parse_single_cont (s : Settings) (st st2 : MidiState) (b : Nat)
    (hfd : b ≠ Undefined_FD)
    (h : parseStep { st with mLastError := clearBit8 st.mLastError ErrorParse } b
           = (.cont, st2)) :
    parse s st [b] = (false, st2, []) := by
  cases hmode : s.use1ByteParsing <;> simp [parse, hfd, h, hmode]

/-! ## Feeding a complete channel-voice message byte by byte -/

theorem feed_cv3 (s : Settings) (st : MidiState) (b d1 d2 : Nat)
    (hidx : st.mPendingMessageIndex = 0) (hb : 0x80 ≤ b)
    (h3 : isThreeByteType (getTypeFromStatusByte b))
    (hd1 : d1 < 0x80) (hd2 : d2 < 0x80) :
    (feedBytes s st [b, d1, d2]).1 = true ∧
    ((feedBytes s st [b, d1, d2]).2).mMessage.type = getTypeFromStatusByte b ∧
    ((feedBytes s st [b, d1, d2]).2).mMessage.channel =
      (if isChannelMessage (getTypeFromStatusByte b)
       then getChannelFromStatusByte b else 0) ∧
    ((feedBytes s st [b, d1, d2]).2).mMessage.data1 = d1 ∧
    ((feedBytes s st [b, d1, d2]).2).mMessage.data2 = d2 ∧
    ((feedBytes s st [b, d1, d2]).2).mMessage.valid = true ∧
    ((feedBytes s st [b, d1, d2]).2).mRunningStatus_RX =
      (if isChannelMessage (getTypeFromStatusByte b) then b else InvalidType) := by
  have hfd : b ≠ Undefined_FD := by
    intro h
    rw [h] at h3
    exact absurd h3 (by decide)
  have hfd1 : d1 ≠ Undefined_FD := by unfold Undefined_FD; omega
  have hfd2 : d2 ≠ Undefined_FD := by unfold Undefined_FD; omega
  have e1 : parse s st [b] =
      (false,
       { st with mLastError := clearBit8 st.mLastError ErrorParse
                 mPendingMessage0 := b
                 mPendingMessageExpectedLength := 3
                 mPendingMessageIndex := 1 }, []) :=
    parse_single_cont s st _ b hfd (parseStep_header3 _ b hidx hb h3)
  have e2 : parse s
      { st with mLastError := clearBit8 st.mLastError ErrorParse
                mPendingMessage0 := b
                mPendingMessageExpectedLength := 3
                mPendingMessageIndex := 1 } [d1] =
      (false,
       { st with mLastError := clearBit8 (clearBit8 st.mLastError ErrorParse) ErrorParse
                 mPendingMessage0 := b
                 mPendingMessage1 := d1
                 mPendingMessageExpectedLength := 3
                 mPendingMessageIndex := 2 }, []) :=
    parse_single_cont s _ _ d1 hfd1 (parseStep_store1 _ d1 rfl rfl hd1)
  have e3 := parse_cons_msg s
    { st with mLastError := clearBit8 (clearBit8 st.mLastError ErrorParse) ErrorParse
              mPendingMessage0 := b
              mPendingMessage1 := d1
              mPendingMessageExpectedLength := 3
              mPendingMessageIndex := 2 } _ d2 [] hfd2
    (parseStep_complete3 _ d2 rfl rfl hd2)
  simp only [feedBytes, List.foldl]
  rw [e1]
  dsimp only
  rw [e2]
  dsimp only
  rw [e3]
  dsimp only
  exact ⟨rfl, rfl, rfl, rfl, rfl, rfl, rfl⟩

theorem feed_cv2 (s : Settings) (st : MidiState) (b d1 : Nat)
    (hidx : st.mPendingMessageIndex = 0) (hb : 0x80 ≤ b)
    (h2 : isTwoByteType (getTypeFromStatusByte b)) (hd1 : d1 < 0x80) :
    (feedBytes s st [b, d1]).1 = true ∧
    ((feedBytes s st [b, d1]).2).mMessage.type = getTypeFromStatusByte b ∧
    ((feedBytes s st [b, d1]).2).mMessage.channel =
      (if isChannelMessage (getTypeFromStatusByte b)
       then getChannelFromStatusByte b else 0) ∧
    ((feedBytes s st [b, d1]).2).mMessage.data1 = d1 ∧
    ((feedBytes s st [b, d1]).2).mMessage.data2 = 0 ∧
    ((feedBytes s st [b, d1]).2).mMessage.valid = true ∧
    ((feedBytes s st [b, d1]).2).mRunningStatus_RX =
      (if isChannelMessage (getTypeFromStatusByte b) then b else InvalidType) := by
  have hfd : b ≠ Undefined_FD := by
    intro h
    rw [h] at h2
    exact absurd h2 (by decide)
  have hfd1 : d1 ≠ Undefined_FD := by unfold Undefined_FD; omega
  have e1 : parse s st [b] =
      (false,
       { st with mLastError := clearBit8 st.mLastError ErrorParse
                 mPendingMessage0 := b
                 mPendingMessageExpectedLength := 2
                 mPendingMessageIndex := 1 }, []) :=
    parse_single_cont s st _ b hfd (parseStep_header2 _ b hidx hb h2)
  have e2 := parse_cons_msg s
    { st with mLastError := clearBit8 st.mLastError ErrorParse
              mPendingMessage0 := b
              mPendingMessageExpectedLength := 2
              mPendingMessageIndex := 1 } _ d1 [] hfd1
    (parseStep_complete2 _ d1 rfl rfl hd1)
  simp only [feedBytes, List.foldl]
  rw [e1]
  dsimp only
  rw [e2]
  dsimp only
  exact ⟨rfl, rfl, rfl, rfl, rfl, rfl, rfl⟩

/-! ## Evaluation lemmas for `send` on channel-voice messages -/

theorem getStatus_cv (t ch : Nat) (ht : isChannelMessage t)
    (hch1 : 1 ≤ ch) (hch16 : ch ≤ 16) :
    getStatus t ch = t + (ch - 1) := by
  unfold getStatus
  have h1 : (ch + 255) % 256 = ch - 1 := by omega
  rw [h1, and15_eq _ (by omega), (cv_status_facts t (ch - 1) ht (by omega)).1]

theorem getChannel_cv (t ch : Nat) (ht : isChannelMessage t)
    (hch1 : 1 ≤ ch) (hch16 : ch ≤ 16) :
    getChannelFromStatusByte (t + (ch - 1)) = ch := by
  unfold getChannelFromStatusByte
  rw [(cv_status_facts t (ch - 1) ht (by omega)).2.2]
  omega

theorem send_cv_wire (s : Settings) (now t d1 d2 ch : Nat) (st : MidiState)
    (ht : isChannelMessage t) (hch1 : 1 ≤ ch) (hch16 : ch ≤ 16)
    (hTX : st.mRunningStatus_TX ≠ t + (ch - 1)) :
    (send s now t d1 d2 ch st).2 =
      (t + (ch - 1)) :: (d1 &&& 0x7f) ::
        (if t = ProgramChange ∨ t = AfterTouchChannel then [] else [d2 &&& 0x7f]) := by
  obtain ⟨h80, hE0⟩ := cv_bounds t ht
  have hst := getStatus_cv t ch ht hch1 hch16
  have hc1 : t ≤ PitchBend := by unfold PitchBend; omega
  have hc2 : ¬ (MIDI_CHANNEL_OFF ≤ ch ∨ ch = MIDI_CHANNEL_OMNI ∨ t < 0x80) := by
    unfold MIDI_CHANNEL_OFF MIDI_CHANNEL_OMNI
    omega
  rcases Decidable.em (t = ProgramChange ∨ t = AfterTouchChannel) with hpc | hpc
  · have hnd : ¬ (t ≠ ProgramChange ∧ t ≠ AfterTouchChannel) := by tauto
    cases hrs : s.useRunningStatus <;>
      simp [send, hc1, hc2, hst, hTX, hpc, hnd, hrs]
  · have hd : t ≠ ProgramChange ∧ t ≠ AfterTouchChannel := by tauto
    cases hrs : s.useRunningStatus <;>
      simp [send, hc1, hc2, hst, hTX, hpc, hd.1, hd.2, hrs]

theorem send_cv_eval_noRS (s : Settings) (now t d1 d2 ch : Nat) (st : MidiState)
    (ht : isChannelMessage t) (hch1 : 1 ≤ ch) (hch16 : ch ≤ 16)
    (hrs : s.useRunningStatus = false) :
    send s now t d1 d2 ch st =
      (updateLastSentTime s now st,
       (t + (ch - 1)) :: (d1 &&& 0x7f) ::
         (if t = ProgramChange ∨ t = AfterTouchChannel then [] else [d2 &&& 0x7f])) := by
  obtain ⟨h80, hE0⟩ := cv_bounds t ht
  have hst := getStatus_cv t ch ht hch1 hch16
  have hc1 : t ≤ PitchBend := by unfold PitchBend; omega
  have hc2 : ¬ (MIDI_CHANNEL_OFF ≤ ch ∨ ch = MIDI_CHANNEL_OMNI ∨ t < 0x80) := by
    unfold MIDI_CHANNEL_OFF MIDI_CHANNEL_OMNI
    omega
  rcases Decidable.em (t = ProgramChange ∨ t = AfterTouchChannel) with hpc | hpc
  · have hnd : ¬ (t ≠ ProgramChange ∧ t ≠ AfterTouchChannel) := by tauto
    simp [send, hc1, hc2, hst, hpc, hnd, hrs]
  · have hd : t ≠ ProgramChange ∧ t ≠ AfterTouchChannel := by tauto
    simp [send, hc1, hc2, hst, hpc, hd.1, hd.2, hrs]

/-- C1: for every valid channel-voice tuple (type, data1, data2, channel)
with channel in 1..16, data bytes in 0..127 (and data2 = 0 for the two
one-data-byte types, which carry no second data byte), sending it with
send and feeding the emitted wire bytes one at a time to a freshly
initialized parser yields a complete message whose type, channel, data1
and data2 are identical to the tuple sent. -/
theorem send_parse_roundtrip (s : Settings) (t d1 d2 ch : Nat)
    (ht : isChannelMessage t) (hch1 : 1 ≤ ch) (hch16 : ch ≤ 16)
    (hd1 : d1 ≤ 127) (hd2 : d2 ≤ 127)
    (hd2v : t = ProgramChange ∨ t = AfterTouchChannel → d2 = 0) :
    (feedBytes s (beginState s 1)
      (send s 0 t d1 d2 ch (beginState s 1)).2).1 = true ∧
    ((feedBytes s (beginState s 1)
      (send s 0 t d1 d2 ch (beginState s 1)).2).2).mMessage.type = t ∧
    ((feedBytes s (beginState s 1)
      (send s 0 t d1 d2 ch (beginState s 1)).2).2).mMessage.channel = ch ∧
    ((feedBytes s (beginState s 1)
      (send s 0 t d1 d2 ch (beginState s 1)).2).2).mMessage.data1 = d1 ∧
    ((feedBytes s (beginState s 1)
      (send s 0 t d1 d2 ch (beginState s 1)).2).2).mMessage.data2 = d2 ∧
    ((feedBytes s (beginState s 1)
      (send s 0 t d1 d2 ch (beginState s 1)).2).2).mMessage.valid = true := by
  obtain ⟨h80, hE0⟩ := cv_bounds t ht
  have hTX : (beginState s 1).mRunningStatus_TX ≠ t + (ch - 1) := by
    show (0 : Nat) ≠ t + (ch - 1)
    omega
  have hwire := send_cv_wire s 0 t d1 d2 ch (beginState s 1) ht hch1 hch16 hTX
  have hidx : (beginState s 1).mPendingMessageIndex = 0 := rfl
  have hbge : 0x80 ≤ t + (ch - 1) := by omega
  have htype := getType_cv t (ch - 1) ht (by omega)
  have hchn := getChannel_cv t ch ht hch1 hch16
  rw [hwire, and127_eq d1 (by omega), and127_eq d2 (by omega)]
  rcases Decidable.em (t = ProgramChange ∨ t = AfterTouchChannel) with hpc | hpc
  · rw [if_pos hpc]
    have h2T : isTwoByteType (getTypeFromStatusByte (t + (ch - 1))) := by
      rw [htype]
      rcases hpc with rfl | rfl
      · exact Or.inl rfl
      · exact Or.inr (Or.inl rfl)
    obtain ⟨f1, f2, f3, f4, f5, f6, f7⟩ :=
      feed_cv2 s (beginState s 1) (t + (ch - 1)) d1 hidx hbge h2T (by omega)
    rw [htype] at f2 f3
    rw [if_pos ht, hchn] at f3
    exact ⟨f1, f2, f3, f4, by rw [hd2v hpc]; exact f5, f6⟩
  · rw [if_neg hpc]
    have h3T : isThreeByteType (getTypeFromStatusByte (t + (ch - 1))) := by
      rw [htype]
      rcases ht with rfl | rfl | rfl | rfl | rfl | rfl | rfl
      · exact Or.inr (Or.inl rfl)
      · exact Or.inl rfl
      · exact Or.inr (Or.inr (Or.inl rfl))
      · exact Or.inr (Or.inr (Or.inr (Or.inr (Or.inl rfl))))
      · exact absurd (Or.inr rfl) hpc
      · exact Or.inr (Or.inr (Or.inr (Or.inl rfl)))
      · exact absurd (Or.inl rfl) hpc
    obtain ⟨f1, f2, f3, f4, f5, f6, f7⟩ :=
      feed_cv3 s (beginState s 1) (t + (ch - 1)) d1 d2 hidx hbge h3T
        (by omega) (by omega)
    rw [htype] at f2 f3
    rw [if_pos ht, hchn] at f3
    exact ⟨f1, f2, f3, f4, f5, f6⟩

/-- Witness for C1 at the concrete tuple (NoteOn, 60, 100, channel 5). -/
theorem send_parse_roundtrip_witness :
    (feedBytes DefaultSettings (beginState DefaultSettings 1)
      (send DefaultSettings 0 NoteOn 60 100 5 (beginState DefaultSettings 1)).2).1 = true ∧
    ((feedBytes DefaultSettings (beginState DefaultSettings 1)
      (send DefaultSettings 0 NoteOn 60 100 5 (beginState DefaultSettings 1)).2).2).mMessage.type = NoteOn ∧
    ((feedBytes DefaultSettings (beginState DefaultSettings 1)
      (send DefaultSettings 0 NoteOn 60 100 5 (beginState DefaultSettings 1)).2).2).mMessage.channel = 5 ∧
    ((feedBytes DefaultSettings (beginState DefaultSettings 1)
      (send DefaultSettings 0 NoteOn 60 100 5 (beginState DefaultSettings 1)).2).2).mMessage.data1 = 60 ∧
    ((feedBytes DefaultSettings (beginState DefaultSettings 1)
      (send DefaultSettings 0 NoteOn 60 100 5 (beginState DefaultSettings 1)).2).2).mMessage.data2 = 100 ∧
    ((feedBytes DefaultSettings (beginState DefaultSettings 1)
      (send DefaultSettings 0 NoteOn 60 100 5 (beginState DefaultSettings 1)).2).2).mMessage.valid = true :=
  send_parse_roundtrip DefaultSettings NoteOn 60 100 5 (by decide) (by decide)
    (by decide) (by decide) (by decide) (by decide)

/-! ## Frame lemmas about the error flags -/

theorem or_parseBit_testBit_zero (e : Nat) :
    (e ||| (1 <<< ErrorParse)).testBit 0 = true := by
  unfold ErrorParse
  have hm : (1 <<< 0 : Nat).testBit 0 = true := by decide
  rw [Nat.testBit_or, hm, Bool.or_true]

theorem setPendingAt_mLastError (st : MidiState) (i v : Nat) :
    (setPendingAt st i v).mLastError = st.mLastError := by
  unfold setPendingAt
  split_ifs <;> rfl

theorem parseStep_msg_err (st st2 : MidiState) (b : Nat)
    (h : parseStep st b = (.msg, st2)) : st2.mLastError = st.mLastError := by
  simp only [parseStep] at h
  split_ifs at h <;>
    injection h with h1 h2 <;>
    first
      | exact absurd h1 (by decide)
      | (rw [← h2]; simp [setPendingAt_mLastError])
      | rw [← h2]

theorem parseStep_cont_err (st st2 : MidiState) (b : Nat)
    (h : parseStep st b = (.cont, st2)) : st2.mLastError = st.mLastError := by
  simp only [parseStep] at h
  split_ifs at h <;>
    injection h with h1 h2 <;>
    first
      | exact absurd h1 (by decide)
      | (rw [← h2]; simp [setPendingAt_mLastError])
      | rw [← h2]

theorem parseStep_errOut_err (st st2 : MidiState) (b : Nat)
    (h : parseStep st b = (.err, st2)) :
    st2.mLastError = st.mLastError ||| (1 <<< ErrorParse) := by
  simp only [parseStep] at h
  split_ifs at h <;>
    injection h with h1 h2 <;>
    first
      | exact absurd h1 (by decide)
      | (rw [← h2]; simp [resetInput, setPendingAt_mLastError])

/-- The greedy parser preserves a set ActiveSensingTimeout bit: `parse`
touches only the ParseError bit. -/
theorem parse_preserves_timeout_bit (s : Settings) :
    ∀ (input : List Nat) (st : MidiState),
      st.mLastError.testBit 1 = true →
      ((parse s st input).2.1).mLastError.testBit 1 = true := by
  intro input
  induction input with
  | nil => intro st h; exact h
  | cons b rest ih =>
    intro st h
    have hc : (clearBit8 st.mLastError ErrorParse).testBit 1 = true := by
      rw [clearBit8_zero_testBit_one]; exact h
    by_cases hfd : b = Undefined_FD
    · subst hfd
      have hbr : parse s st (Undefined_FD :: rest) =
          if s.use1ByteParsing then
            (false, { st with mLastError := clearBit8 st.mLastError ErrorParse }, rest)
          else
            parse s { st with mLastError := clearBit8 st.mLastError ErrorParse } rest := by
        simp [parse]
      rw [hbr]
      rcases hmode : s.use1ByteParsing
      · simp only [Bool.false_eq_true, if_false]
        exact ih _ hc
      · simp only [if_true]
        exact hc
    · rcases hps : parseStep { st with mLastError := clearBit8 st.mLastError ErrorParse } b
        with ⟨o, st2⟩
      cases o
      · rw [parse_cons_msg s st st2 b rest hfd hps]
        show st2.mLastError.testBit 1 = true
        rw [parseStep_msg_err _ st2 b hps]
        exact hc
      · rw [parse_cons_err s st st2 b rest hfd hps]
        show st2.mLastError.testBit 1 = true
        rw [parseStep_errOut_err _ st2 b hps]
        show ((clearBit8 st.mLastError ErrorParse) ||| (1 <<< ErrorParse)).testBit 1 = true
        rw [or_parseBit_testBit_one]
        exact hc
      · have hbr : parse s st (b :: rest) =
            if s.use1ByteParsing then (false, st2, rest) else parse s st2 rest := by
          simp [parse, hfd, hps]
        rw [hbr]
        have h2 : st2.mLastError.testBit 1 = true := by
          rw [parseStep_cont_err _ st2 b hps]
          exact hc
        rcases hmode : s.use1ByteParsing
        · simp only [Bool.false_eq_true, if_false]
          exact ih st2 h2
        · simp only [if_true]
          exact h2

/-- A successful `parse` leaves the ParseError bit clear: it is cleared on
entry and every path that sets it returns failure. -/
theorem parse_true_parseBit (s : Settings) :
    ∀ (input : List Nat) (st st2 : MidiState) (rest : List Nat),
      parse s st input = (true, st2, rest) →
      st2.mLastError.testBit 0 = false := by
  intro input
  induction input with
  | nil =>
    intro st st2 rest h
    simp [parse] at h
  | cons b rest0 ih =>
    intro st st2 rest h
    by_cases hfd : b = Undefined_FD
    · subst hfd
      have hbr : parse s st (Undefined_FD :: rest0) =
          if s.use1ByteParsing then
            (false, { st with mLastError := clearBit8 st.mLastError ErrorParse }, rest0)
          else
            parse s { st with mLastError := clearBit8 st.mLastError ErrorParse } rest0 := by
        simp [parse]
      rw [hbr] at h
      rcases hmode : s.use1ByteParsing
      · rw [hmode] at h
        simp only [Bool.false_eq_true, if_false] at h
        exact ih _ st2 rest h
      · rw [hmode] at h
        simp only [if_true, Prod.mk.injEq] at h
        exact absurd h.1 (by decide)
    · rcases hps : parseStep { st with mLastError := clearBit8 st.mLastError ErrorParse } b
        with ⟨o, st3⟩
      cases o
      · rw [parse_cons_msg s st st3 b rest0 hfd hps] at h
        simp only [Prod.mk.injEq] at h
        rw [← h.2.1, parseStep_msg_err _ st3 b hps]
        exact clearBit8_testBit_zero st.mLastError
      · rw [parse_cons_err s st st3 b rest0 hfd hps] at h
        simp only [Prod.mk.injEq] at h
        exact absurd h.1 (by decide)
      · have hbr : parse s st (b :: rest0) =
            if s.use1ByteParsing then (false, st3, rest0) else parse s st3 rest0 := by
          simp [parse, hfd, hps]
        rw [hbr] at h
        rcases hmode : s.use1ByteParsing
        · rw [hmode] at h
          simp only [Bool.false_eq_true, if_false] at h
          exact ih st3 st2 rest h
        · rw [hmode] at h
          simp only [if_true, Prod.mk.injEq] at h
          exact absurd h.1 (by decide)

theorem sendRealTime_fst_mLastError (s : Settings) (now t : Nat) (st : MidiState) :
    ((sendRealTime s now t st).1).mLastError = st.mLastError := by
  unfold sendRealTime updateLastSentTime
  split_ifs <;> rfl

theorem handleNullVelocity_mLastError (s : Settings) (st : MidiState) :
    (handleNullVelocityNoteOnAsNoteOff s st).mLastError = st.mLastError := by
  unfold handleNullVelocityNoteOnAsNoteOff
  split_ifs <;> rfl

/-! ## Claim theorems -/

/-- C2: feeding the parser the byte sequence 0x90, 60, 100, 64, 101 yields
two complete NoteOn messages on channel 1; after the first message, a byte
with the high bit clear arriving in Idle synthesizes the missing status
byte from RX running status into slot 0 of the pending buffer, stores the
incoming byte as the message's first data byte at slot 1, and leaves the
parser accumulating (the shared length check then advances the write
index past the stored data byte, to 2). -/
theorem running_status_expansion :
    (collectMessages DefaultSettings (beginState DefaultSettings 1)
        [0x90, 60, 100, 64, 101]).1 =
      [{ channel := 1, type := NoteOn, data1 := 60, data2 := 100,
         valid := true, length := 0 },
       { channel := 1, type := NoteOn, data1 := 64, data2 := 101,
         valid := true, length := 0 }] ∧
    ((collectMessages DefaultSettings (beginState DefaultSettings 1)
        [0x90, 60, 100]).2).mRunningStatus_RX = NoteOn ∧
    (parse DefaultSettings
        (collectMessages DefaultSettings (beginState DefaultSettings 1)
          [0x90, 60, 100]).2 [64]).1 = false ∧
    ((parse DefaultSettings
        (collectMessages DefaultSettings (beginState DefaultSettings 1)
          [0x90, 60, 100]).2 [64]).2.1).mPendingMessage0 = NoteOn ∧
    ((parse DefaultSettings
        (collectMessages DefaultSettings (beginState DefaultSettings 1)
          [0x90, 60, 100]).2 [64]).2.1).mPendingMessage1 = 64 ∧
    ((parse DefaultSettings
        (collectMessages DefaultSettings (beginState DefaultSettings 1)
          [0x90, 60, 100]).2 [64]).2.1).mPendingMessageIndex = 2 := by
  decide

/-- C3: one of the seven system real-time status bytes arriving while the
parser is accumulating a partial message is returned immediately as a
complete, valid one-byte message, and the pending-message buffer, the
pending index, the expected length, and the RX running status are left
exactly as they were (the returned state differs from the input state only
in the message slot and the cleared ParseError bit); the interrupted
message then completes normally on later calls, as in the interleaving
scenario 0xB0, 7, 0xF8, 64 which yields Clock then ControlChange. -/
theorem realtime_interleave (s : Settings) (st : MidiState) (b : Nat)
    (rest : List Nat) (hacc : st.mPendingMessageIndex ≠ 0)
    (hrt : isRealTimeStatus b) :
    parse s st (b :: rest) =
      (true,
       { st with
           mLastError := clearBit8 st.mLastError ErrorParse
           mMessage := { type := b, data1 := 0, data2 := 0,
                         channel := 0, length := 1, valid := true } },
       rest) ∧
    (collectMessages DefaultSettings (beginState DefaultSettings 1)
        [0xB0, 7, 0xF8, 64]).1 =
      [{ channel := 0, type := Clock, data1 := 0, data2 := 0,
         valid := true, length := 1 },
       { channel := 1, type := ControlChange, data1 := 7, data2 := 64,
         valid := true, length := 1 }] := by
  constructor
  · have hfd : b ≠ Undefined_FD := by
      rcases hrt with rfl | rfl | rfl | rfl | rfl | rfl | rfl <;> decide
    exact parse_cons_msg s st _ b rest hfd (parseStep_realtime _ b hacc hrt)
  · decide

/-- Witness for C3: a Clock byte interrupting a half-received
ControlChange is returned at once as a complete message. -/
theorem realtime_interleave_witness :
    (parse DefaultSettings
      ((parse DefaultSettings (beginState DefaultSettings 1) [0xB0, 7]).2.1)
      [0xF8]).1 = true := by
  have h := realtime_interleave DefaultSettings
    ((parse DefaultSettings (beginState DefaultSettings 1) [0xB0, 7]).2.1)
    0xF8 [] (by decide) (by decide)
  rw [h.1]

/-- C4: on every parse-error path (an unrecognized or invalid status byte
in Idle, a stray data byte with no valid running status, or a sysex
start/end marker arriving mid-accumulation) parse sets the parse-error
bit, resets the pending state to Idle (index 0, expected length 0),
invalidates RX running status, and returns no message; afterwards, from
any Idle state, a well-formed status byte starts a fresh message
correctly. -/
theorem parse_error_recovery (s : Settings) (st : MidiState) (b : Nat)
    (rest : List Nat) :
    (st.mPendingMessageIndex = 0 → 0x80 ≤ b → b ≠ Undefined_FD →
      ¬ isOneByteType (getTypeFromStatusByte b) →
      ¬ isTwoByteType (getTypeFromStatusByte b) →
      ¬ isThreeByteType (getTypeFromStatusByte b) →
      parse s st (b :: rest) =
        (false,
         { st with
             mPendingMessage0 := b
             mLastError := clearBit8 st.mLastError ErrorParse ||| (1 <<< ErrorParse)
             mPendingMessageIndex := 0
             mPendingMessageExpectedLength := 0
             mRunningStatus_RX := InvalidType }, rest)) ∧
    (st.mPendingMessageIndex = 0 → b < 0x80 →
      ¬ isChannelMessage (getTypeFromStatusByte st.mRunningStatus_RX) →
      parse s st (b :: rest) =
        (false,
         { st with
             mPendingMessage0 := b
             mLastError := clearBit8 st.mLastError ErrorParse ||| (1 <<< ErrorParse)
             mPendingMessageIndex := 0
             mPendingMessageExpectedLength := 0
             mRunningStatus_RX := InvalidType }, rest)) ∧
    (st.mPendingMessageIndex ≠ 0 →
      (b = SystemExclusiveStart ∨ b = SystemExclusiveEnd) →
      parse s st (b :: rest) =
        (false,
         { st with
             mLastError := clearBit8 st.mLastError ErrorParse ||| (1 <<< ErrorParse)
             mPendingMessageIndex := 0
             mPendingMessageExpectedLength := 0
             mRunningStatus_RX := InvalidType }, rest)) ∧
    (st.mPendingMessageIndex = 0 →
      (feedBytes s st [0x90, 60, 100]).1 = true ∧
      ((feedBytes s st [0x90, 60, 100]).2).mMessage.type = NoteOn ∧
      ((feedBytes s st [0x90, 60, 100]).2).mMessage.channel = 1 ∧
      ((feedBytes s st [0x90, 60, 100]).2).mMessage.data1 = 60 ∧
      ((feedBytes s st [0x90, 60, 100]).2).mMessage.data2 = 100 ∧
      ((feedBytes s st [0x90, 60, 100]).2).mMessage.valid = true) := by
  refine ⟨?_, ?_, ?_, ?_⟩
  · intro hidx hb hfd h1 h2 h3
    exact parse_cons_err s st _ b rest hfd
      (parseStep_err_idle _ b hidx hb h1 h2 h3)
  · intro hidx hb hrs
    have hfd : b ≠ Undefined_FD := by unfold Undefined_FD; omega
    exact parse_cons_err s st _ b rest hfd
      (parseStep_err_stray _ b hidx hb hrs)
  · intro hacc hb
    have hfd : b ≠ Undefined_FD := by
      rcases hb with rfl | rfl <;> decide
    exact parse_cons_err s st _ b rest hfd
      (parseStep_err_sysex _ b hacc hb)
  · intro hidx
    obtain ⟨f1, f2, f3, f4, f5, f6, -⟩ :=
      feed_cv3 s st 0x90 60 100 hidx (by decide) (by decide)
        (by decide) (by decide)
    have hgt : getTypeFromStatusByte 0x90 = NoteOn := by decide
    have hcm : isChannelMessage (getTypeFromStatusByte 0x90) := by decide
    have hgc : getChannelFromStatusByte 0x90 = 1 := by decide
    rw [hgt] at f2
    rw [if_pos hcm, hgc] at f3
    exact ⟨f1, f2, f3, f4, f5, f6⟩

/-- Witness for C4: the reserved code 0xF4 in Idle errors out and the
parser then accepts a complete NoteOn. -/
theorem parse_error_recovery_witness :
    (parse DefaultSettings (beginState DefaultSettings 1) [0xF4, 9]).1 = false ∧
    (feedBytes DefaultSettings (beginState DefaultSettings 1)
      [0x90, 60, 100]).1 = true := by
  have h := parse_error_recovery DefaultSettings (beginState DefaultSettings 1)
    0xF4 [9]
  constructor
  · rw [h.1 (by decide) (by decide) (by decide) (by decide) (by decide) (by decide)]
  · exact (h.2.2.2 (by decide)).1

/-- C5 counterexample: sendRealTime applied to Tick (0xF9) writes nothing
at all — Tick is missing from the switch — refuting the claim that each
of the seven real-time codes writes exactly one byte. -/
theorem sendRealTime_tick_counterexample :
    (sendRealTime DefaultSettings 0 Tick (beginState DefaultSettings 1)).2 = []
      := by decide

/-- C5 amended: sendRealTime writes exactly one byte (the type code) and
leaves TX running status unchanged for the six codes of its switch
(Clock, Start, Stop, Continue, ActiveSensing, SystemReset); for any other
argument — including Tick — it writes nothing and leaves the whole state
unchanged. -/
theorem sendRealTime_behavior (s : Settings) (now t : Nat) (st : MidiState) :
    ((t = Clock ∨ t = Start ∨ t = Stop ∨ t = Continue ∨ t = ActiveSensing ∨
        t = SystemReset) →
      (sendRealTime s now t st).2 = [t] ∧
      ((sendRealTime s now t st).1).mRunningStatus_TX = st.mRunningStatus_TX) ∧
    (¬ (t = Clock ∨ t = Start ∨ t = Stop ∨ t = Continue ∨ t = ActiveSensing ∨
        t = SystemReset) →
      sendRealTime s now t st = (st, [])) := by
  constructor
  · intro h
    unfold sendRealTime
    rw [if_pos h]
    refine ⟨rfl, ?_⟩
    unfold updateLastSentTime
    split_ifs <;> rfl
  · intro h
    unfold sendRealTime
    rw [if_neg h]

/-- Witness for C5: Clock writes exactly its own code, Tick writes
nothing. -/
theorem sendRealTime_behavior_witness :
    (sendRealTime DefaultSettings 0 Clock (beginState DefaultSettings 1)).2 =
      [Clock] ∧
    sendRealTime DefaultSettings 0 Tick (beginState DefaultSettings 1) =
      (beginState DefaultSettings 1, []) :=
  ⟨((sendRealTime_behavior DefaultSettings 0 Clock
      (beginState DefaultSettings 1)).1 (by decide)).1,
   (sendRealTime_behavior DefaultSettings 0 Tick
      (beginState DefaultSettings 1)).2 (by decide)⟩

/-- C10: completing a single-byte message (one of the seven real-time
codes or TuneRequest) from the Idle state sets the message type to that
code, zeroes channel, data1 and data2, sets valid, but does not assign
the length field, which retains whatever value the previously completed
message left in it; only the interleaved path (a real-time status byte
arriving mid-accumulation) sets length to 1. -/
theorem oneByte_completion_length (s : Settings) (st : MidiState) (b : Nat)
    (rest : List Nat) :
    (st.mPendingMessageIndex = 0 → isOneByteType b →
      parse s st (b :: rest) =
        (true,
         { st with
             mLastError := clearBit8 st.mLastError ErrorParse
             mPendingMessage0 := b
             mMessage := { st.mMessage with
                             type := b
                             channel := 0
                             data1 := 0
                             data2 := 0
                             valid := true }
             mPendingMessageIndex := 0
             mPendingMessageExpectedLength := 0 }, rest)) ∧
    (st.mPendingMessageIndex = 0 → isOneByteType b →
      ((parse s st (b :: rest)).2.1).mMessage.length = st.mMessage.length) ∧
    (st.mPendingMessageIndex ≠ 0 → isRealTimeStatus b →
      ((parse s st (b :: rest)).2.1).mMessage.length = 1) := by
  have key : st.mPendingMessageIndex = 0 → isOneByteType b →
      parse s st (b :: rest) =
        (true,
         { st with
             mLastError := clearBit8 st.mLastError ErrorParse
             mPendingMessage0 := b
             mMessage := { st.mMessage with
                             type := b
                             channel := 0
                             data1 := 0
                             data2 := 0
                             valid := true }
             mPendingMessageIndex := 0
             mPendingMessageExpectedLength := 0 }, rest) := by
    intro hidx h1
    rcases h1 with rfl | rfl | rfl | rfl | rfl | rfl | rfl | rfl <;>
      exact parse_cons_msg s st _ _ rest (by decide)
        (parseStep_oneByte _ _ hidx (by decide) (by decide))
  refine ⟨key, ?_, ?_⟩
  · intro hidx h1
    rw [key hidx h1]
  · intro hacc hrt
    have hfd : b ≠ Undefined_FD := by
      rcases hrt with rfl | rfl | rfl | rfl | rfl | rfl | rfl <;> decide
    rw [parse_cons_msg s st _ b rest hfd (parseStep_realtime _ b hacc hrt)]

/-- Witness for C10: completing a Clock from Idle after a three-byte
message leaves the stale length 0 from begin in place, while the
interleaved path writes length 1. -/
theorem oneByte_completion_length_witness :
    ((parse DefaultSettings
        { beginState DefaultSettings 1 with
            mMessage := { channel := 0, type := 0, data1 := 0, data2 := 0,
                          valid := false, length := 3 } } [Clock]).2.1).mMessage.length
      = 3 := by
  have h := oneByte_completion_length DefaultSettings
    { beginState DefaultSettings 1 with
        mMessage := { channel := 0, type := 0, data1 := 0, data2 := 0,
                      valid := false, length := 3 } } Clock []
  rw [h.2.1 (by decide) (by decide)]

/-! ## The watchdog and the error-bit policy -/

/-- Settings with the receive-side watchdog enabled. -/
def watchdogSettings : Settings :=
  { DefaultSettings with useReceiverActiveSensing := true }

/-- C6: concrete watchdog run. Arm with ActiveSensing at time 0; poll at
time 301 with no data: the sticky timeout bit is set and the watchdog
disarmed; poll again at 301: the bit is not set a second time; receive a
fresh ActiveSensing at 302: the watchdog re-arms, but the timeout-error
bit remains set — the clearing branch tests the bit at position
ErrorActiveSensingTimeout - 1 (the ParseError bit, which parse has just
cleared), so it never fires. -/
theorem activeSensing_timeout_scenario :
    (let st1 := (read watchdogSettings 0 1
                  (beginState watchdogSettings 1) [0xFE]).2.1
     let st2 := (read watchdogSettings 301 1 st1 []).2.1
     let st3 := (read watchdogSettings 301 1 st2 []).2.1
     let st4 := (read watchdogSettings 302 1 st3 [0xFE]).2.1
     st1.mReceiverActiveSensingActivated = true ∧
     st1.mLastError = 0 ∧
     st2.mReceiverActiveSensingActivated = false ∧
     st2.mLastError = 2 ∧
     st3.mLastError = 2 ∧
     st4.mReceiverActiveSensingActivated = true ∧
     st4.mLastError.testBit ErrorActiveSensingTimeout = true) := by
  decide

/-- C7 counterexample: the reserved undefined code 0xF4, fed to the
parser in the Idle state, is not silently discarded — it sets the
parse-error flag (and produces no message), refuting the claim that both
reserved undefined codes are discarded without setting the flag. -/
theorem undefined_f4_counterexample :
    (parse DefaultSettings (beginState DefaultSettings 1) [Undefined_F4]).1
        = false ∧
    ((parse DefaultSettings (beginState DefaultSettings 1)
        [Undefined_F4]).2.1).mLastError.testBit ErrorParse = true := by
  decide

/-- C7 amended: only the reserved undefined code 0xFD is discarded without
producing a message, without setting the parse-error flag, and without
altering running status or the pending buffer — in greedy mode the parser
immediately tries the next byte, in single-byte mode the call returns no
message; the other two reserved codes 0xF4 and 0xF5 are not discarded:
in the Idle state they take the parse-error path. -/
theorem undefined_byte_handling (s : Settings) (st : MidiState)
    (rest : List Nat) :
    parse s st (Undefined_FD :: rest) =
      (if s.use1ByteParsing then
        (false, { st with mLastError := clearBit8 st.mLastError ErrorParse },
         rest)
       else
        parse s { st with mLastError := clearBit8 st.mLastError ErrorParse }
          rest) ∧
    (st.mPendingMessageIndex = 0 →
      ((parse s st (Undefined_F4 :: rest)).1 = false ∧
        ((parse s st (Undefined_F4 :: rest)).2.1).mLastError.testBit
          ErrorParse = true) ∧
      ((parse s st (Undefined_F5 :: rest)).1 = false ∧
        ((parse s st (Undefined_F5 :: rest)).2.1).mLastError.testBit
          ErrorParse = true)) := by
  constructor
  · simp [parse]
  · intro hidx
    have h4 := parse_cons_err s st _ Undefined_F4 rest (by decide)
      (parseStep_err_idle _ _ hidx (by decide) (by decide) (by decide)
        (by decide))
    have h5 := parse_cons_err s st _ Undefined_F5 rest (by decide)
      (parseStep_err_idle _ _ hidx (by decide) (by decide) (by decide)
        (by decide))
    refine ⟨⟨?_, ?_⟩, ?_, ?_⟩
    · rw [h4]
    · rw [h4]
      exact or_parseBit_testBit_zero _
    · rw [h5]
    · rw [h5]
      exact or_parseBit_testBit_zero _

/-- Witness for C7: 0xFD is dropped without a message; 0xF5 sets the
parse-error flag. -/
theorem undefined_byte_handling_witness :
    (parse DefaultSettings (beginState DefaultSettings 1) [Undefined_FD]).1
        = false ∧
    ((parse DefaultSettings (beginState DefaultSettings 1)
        [Undefined_F5]).2.1).mLastError.testBit ErrorParse = true := by
  have h := undefined_byte_handling DefaultSettings
    (beginState DefaultSettings 1) []
  refine ⟨?_, (h.2 (by decide)).2.2⟩
  rw [h.1]
  decide

/-- C8 counterexample: a read cycle with no transport byte available does
not clear a previously set ParseError bit, and a read cycle that receives
a fresh ActiveSensing message does not clear a set ActiveSensingTimeout
bit. -/
theorem read_error_bits_counterexample :
    ((read DefaultSettings 0 1
        { beginState DefaultSettings 1 with mLastError := 1 }
        []).2.1).mLastError.testBit ErrorParse = true ∧
    ((read watchdogSettings 0 1
        { beginState watchdogSettings 1 with mLastError := 2 }
        [0xFE]).2.1).mLastError.testBit ErrorActiveSensingTimeout = true := by
  decide

theorem readPost_mLastError (s : Settings) (now : Nat) (st : MidiState)
    (h0 : st.mLastError.testBit 0 = false) :
    (readPost s now st).mLastError = st.mLastError := by
  have hz : st.mLastError &&& (1 <<< (ErrorActiveSensingTimeout - 1)) = 0 :=
    and_one_eq_zero_of_testBit st.mLastError h0
  unfold readPost
  split_ifs <;>
    simp [hz, handleNullVelocity_mLastError, apply_ite MidiState.mLastError]

theorem readPre_testBit_zero (s : Settings) (now : Nat) (st : MidiState) :
    (((readPre s now st).1).mLastError).testBit 0 = st.mLastError.testBit 0 := by
  unfold readPre
  split_ifs <;>
    simp [sendRealTime_fst_mLastError, or_timeoutBit_testBit_zero,
      apply_ite MidiState.mLastError, apply_ite (fun e : Nat => e.testBit 0),
      ErrorActiveSensingTimeout]

theorem readPre_testBit_one (s : Settings) (now : Nat) (st : MidiState)
    (h1 : st.mLastError.testBit 1 = true) :
    (((readPre s now st).1).mLastError).testBit 1 = true := by
  unfold readPre
  split_ifs <;>
    simp [sendRealTime_fst_mLastError, or_timeoutBit_testBit_one, h1,
      apply_ite MidiState.mLastError, apply_ite (fun e : Nat => e.testBit 1),
      ErrorActiveSensingTimeout]

/-- C8 amended: the ParseError bit is cleared at the start of parsing each
available byte — parse behaves identically whether or not the bit was set
on entry — but a read cycle with no transport byte available leaves the
bit untouched (the clear happens after the availability check); the
ActiveSensingTimeout bit survives every read cycle (even one that
receives a fresh ActiveSensing message). -/
theorem error_bit_policy (s : Settings) :
    (∀ (st : MidiState) (b : Nat) (rest : List Nat),
      parse s st (b :: rest) =
        parse s { st with mLastError := clearBit8 st.mLastError ErrorParse }
          (b :: rest)) ∧
    (∀ (now ch : Nat) (st : MidiState),
      ((read s now ch st []).2.1).mLastError.testBit ErrorParse =
        st.mLastError.testBit ErrorParse) ∧
    (∀ (now ch : Nat) (st : MidiState) (input : List Nat),
      st.mLastError.testBit ErrorActiveSensingTimeout = true →
      ((read s now ch st input).2.1).mLastError.testBit
        ErrorActiveSensingTimeout = true) := by
  refine ⟨?_, ?_, ?_⟩
  · intro st b rest
    simp only [parse]
    rw [clearBit8_idem]
  · intro now ch st
    simp only [read, parse_nil]
    split_ifs <;> exact readPre_testBit_zero s now st
  · intro now ch st input h1
    have hb1 : (((readPre s now st).1).mLastError).testBit 1 = true :=
      readPre_testBit_one s now st h1
    simp only [read]
    by_cases hch : MIDI_CHANNEL_OFF ≤ ch
    · rw [if_pos hch]
      exact hb1
    · rw [if_neg hch]
      rcases hp : parse s (readPre s now st).1 input with ⟨fl, st3, rem⟩
      have h3 : st3.mLastError.testBit 1 = true := by
        have h := parse_preserves_timeout_bit s input (readPre s now st).1 hb1
        rw [hp] at h
        exact h
      cases fl
      · exact h3
      · have h0 : st3.mLastError.testBit 0 = false :=
          parse_true_parseBit s input _ st3 rem hp
        dsimp only
        show ((readPost s now st3).mLastError).testBit 1 = true
        rw [readPost_mLastError s now st3 h0]
        exact h3

/-- Witness for C8 amended: the clear-at-start equality at a concrete
state with the bit set, and bit survival on a concrete empty read. -/
theorem error_bit_policy_witness :
    parse DefaultSettings
        { beginState DefaultSettings 1 with mLastError := 1 } [0x90] =
      parse DefaultSettings
        { { beginState DefaultSettings 1 with mLastError := 1 } with
            mLastError :=
              clearBit8 ({ beginState DefaultSettings 1 with
                            mLastError := 1 }).mLastError ErrorParse } [0x90] ∧
    ((read DefaultSettings 0 1
        { beginState DefaultSettings 1 with mLastError := 2 }
        []).2.1).mLastError.testBit ErrorActiveSensingTimeout = true := by
  have h := error_bit_policy DefaultSettings
  exact ⟨h.1 { beginState DefaultSettings 1 with mLastError := 1 } 0x90 [],
         h.2.2 0 1 { beginState DefaultSettings 1 with mLastError := 2 } []
           (by decide)⟩

/-! ## RPN/NRPN selection memoization -/

theorem mask7_idem (n : Nat) : (0x7f &&& n) &&& 0x7f = 0x7f &&& n := by
  rw [Nat.and_assoc, Nat.and_comm n 0x7f, ← Nat.and_assoc, Nat.and_self]

/-- C9: beginRpn with the remembered selection equal to the requested
number emits no bytes and changes no state; with a differing number (and
running-status compression off, a channel in 1..16) it emits exactly the
two selection Control-Change messages — LSB-select controller 100, then
MSB-select controller 101, carrying the low and the high 7 bits of the
number — and updates the memo to the number, so an immediate second call
with the same number emits nothing; beginNrpn behaves the same with its
own memo and controllers 98/99. -/
theorem beginRpn_dedup (s : Settings) (now n ch : Nat) (st : MidiState)
    (hch1 : 1 ≤ ch) (hch16 : ch ≤ 16) (hrs : s.useRunningStatus = false) :
    (st.mCurrentRpnNumber = n → beginRpn s now n ch st = (st, [])) ∧
    (st.mCurrentRpnNumber ≠ n →
      (beginRpn s now n ch st).2 =
        [ControlChange + (ch - 1), RPNLSB, 0x7f &&& n,
         ControlChange + (ch - 1), RPNMSB, 0x7f &&& (n >>> 7)] ∧
      ((beginRpn s now n ch st).1).mCurrentRpnNumber = n) ∧
    (beginRpn s now n ch ((beginRpn s now n ch st).1)).2 = [] ∧
    (st.mCurrentNrpnNumber = n → beginNrpn s now n ch st = (st, [])) ∧
    (st.mCurrentNrpnNumber ≠ n →
      (beginNrpn s now n ch st).2 =
        [ControlChange + (ch - 1), NRPNLSB, 0x7f &&& n,
         ControlChange + (ch - 1), NRPNMSB, 0x7f &&& (n >>> 7)] ∧
      ((beginNrpn s now n ch st).1).mCurrentNrpnNumber = n) ∧
    (beginNrpn s now n ch ((beginNrpn s now n ch st).1)).2 = [] := by
  have hcv : isChannelMessage ControlChange := by decide
  have hnotPC : ¬ (ControlChange = ProgramChange ∨
      ControlChange = AfterTouchChannel) := by decide
  have hm100 : RPNLSB &&& 0x7f = RPNLSB := by decide
  have hm101 : RPNMSB &&& 0x7f = RPNMSB := by decide
  have hm98 : NRPNLSB &&& 0x7f = NRPNLSB := by decide
  have hm99 : NRPNMSB &&& 0x7f = NRPNMSB := by decide
  have memoRpn : ∀ stx : MidiState, stx.mCurrentRpnNumber ≠ n →
      (beginRpn s now n ch stx).2 =
        [ControlChange + (ch - 1), RPNLSB, 0x7f &&& n,
         ControlChange + (ch - 1), RPNMSB, 0x7f &&& (n >>> 7)] ∧
      ((beginRpn s now n ch stx).1).mCurrentRpnNumber = n := by
    intro stx hne
    unfold beginRpn sendControlChange
    rw [if_pos hne]
    dsimp only
    rw [send_cv_eval_noRS s now ControlChange RPNLSB (0x7f &&& n) ch stx
        hcv hch1 hch16 hrs,
      send_cv_eval_noRS s now ControlChange RPNMSB (0x7f &&& (n >>> 7)) ch _
        hcv hch1 hch16 hrs]
    rw [if_neg hnotPC, if_neg hnotPC]
    rw [hm100, hm101, mask7_idem n, mask7_idem (n >>> 7)]
    exact ⟨rfl, rfl⟩
  have memoNrpn : ∀ stx : MidiState, stx.mCurrentNrpnNumber ≠ n →
      (beginNrpn s now n ch stx).2 =
        [ControlChange + (ch - 1), NRPNLSB, 0x7f &&& n,
         ControlChange + (ch - 1), NRPNMSB, 0x7f &&& (n >>> 7)] ∧
      ((beginNrpn s now n ch stx).1).mCurrentNrpnNumber = n := by
    intro stx hne
    unfold beginNrpn sendControlChange
    rw [if_pos hne]
    dsimp only
    rw [send_cv_eval_noRS s now ControlChange NRPNLSB (0x7f &&& n) ch stx
        hcv hch1 hch16 hrs,
      send_cv_eval_noRS s now ControlChange NRPNMSB (0x7f &&& (n >>> 7)) ch _
        hcv hch1 hch16 hrs]
    rw [if_neg hnotPC, if_neg hnotPC]
    rw [hm98, hm99, mask7_idem n, mask7_idem (n >>> 7)]
    exact ⟨rfl, rfl⟩
  have skipRpn : ∀ stx : MidiState, stx.mCurrentRpnNumber = n →
      beginRpn s now n ch stx = (stx, []) := by
    intro stx heq
    unfold beginRpn
    rw [if_neg (by omega)]
  have skipNrpn : ∀ stx : MidiState, stx.mCurrentNrpnNumber = n →
      beginNrpn s now n ch stx = (stx, []) := by
    intro stx heq
    unfold beginNrpn
    rw [if_neg (by omega)]
  refine ⟨skipRpn st, memoRpn st, ?_, skipNrpn st, memoNrpn st, ?_⟩
  · by_cases heq : st.mCurrentRpnNumber = n
    · rw [skipRpn st heq]
      rw [skipRpn st heq]
    · rw [(skipRpn _ (memoRpn st heq).2)]
  · by_cases heq : st.mCurrentNrpnNumber = n
    · rw [skipNrpn st heq]
      rw [skipNrpn st heq]
    · rw [(skipNrpn _ (memoNrpn st heq).2)]

/-- Witness for C9: selecting RPN 5 on channel 3 from a fresh state emits
the selection pair once; the immediate second call emits nothing. -/
theorem beginRpn_dedup_witness :
    (beginRpn DefaultSettings 0 5 3 (beginState DefaultSettings 1)).2 =
      [ControlChange + 2, RPNLSB, 0x7f &&& 5, ControlChange + 2, RPNMSB,
       0x7f &&& (5 >>> 7)] ∧
    (beginRpn DefaultSettings 0 5 3
      ((beginRpn DefaultSettings 0 5 3 (beginState DefaultSettings 1)).1)).2 =
      [] := by
  have h := beginRpn_dedup DefaultSettings 0 5 3 (beginState DefaultSettings 1)
    (by decide) (by decide) (by decide)
  exact ⟨(h.2.1 (by decide)).1, h.2.2.1⟩

end ArduinoMidi
